import Mathlib

/-!
Verification of the gcode annotation engine of `KlipperSettingsPlugin.py`.

The definitions below are a shallow embedding of the plugin's post-processing
code (`_filterGcode` and the `_gcode*` command formatters).  Python strings are
Lean `String`s, Python floats coming from the settings store are modelled as
`ℚ`, dynamically typed settings values as `PyVal`, Python dicts that are built
from a fixed ordered key set as association lists (or structures when the key
set is closed), and Python exceptions as `Except`.
-/

set_option maxRecDepth 10000

deriving instance DecidableEq for Except

namespace KlipperSettings

/-- Dynamically typed value coming out of the settings store
(`getProperty(..., 'value')` returns whatever the stack holds). -/
inductive PyVal where
  | num (q : ℚ)
  | str (s : String)
  | none
deriving DecidableEq, Repr

/-- Python `==` on settings values: numbers compare numerically, strings
textually, values of different types are unequal (`0 == "x"` is `False`). -/
def pyEq : PyVal → PyVal → Bool
  | .num a, .num b => a == b
  | .str a, .str b => a == b
  | .none, .none => true
  | _, _ => false

/-- Python truth of `v == 0` for a settings value. -/
def pyEqZero (v : PyVal) : Bool :=
  match v with
  | .num q => q == 0
  | _ => false

/-- Python `str.startswith(pre)` (optionally from index `i`, as in
`key.startswith("type", 7)`): prefix test on the character list. -/
def pyStartswith (s pre : String) (i : Nat := 0) : Bool :=
  pre.data.isPrefixOf (s.data.drop i)

/-- Python slicing `s[n:]`. -/
def pyDrop (s : String) (n : Nat) : String :=
  ⟨s.data.drop n⟩

/-- Python `str.strip(chars)`: remove characters of `chars` from both ends. -/
def pyStripChars (s chars : String) : String :=
  ⟨((s.data.dropWhile (chars.data.contains ·)).reverse.dropWhile
      (chars.data.contains ·)).reverse⟩

/-- Helper for `pySplitWs`: split a character list on whitespace runs,
discarding empty pieces (Python `str.split()` with no argument). -/
def splitWsAux : List Char → List Char → List (List Char)
  | [], acc => if acc.isEmpty then [] else [acc.reverse]
  | c :: rest, acc =>
    if c.isWhitespace then
      if acc.isEmpty then splitWsAux rest [] else acc.reverse :: splitWsAux rest []
    else splitWsAux rest (c :: acc)

/-- Python `str.split()` (no separator): split on whitespace runs. -/
def pySplitWs (s : String) : List String :=
  (splitWsAux s.data []).map String.mk

/-- Occurrence of a character sequence inside a character list. -/
def listContainsSeq (sub : List Char) : List Char → Bool
  | [] => sub.isEmpty
  | c :: rest => sub.isPrefixOf (c :: rest) || listContainsSeq sub rest

/-- Python `sub in s` on strings. -/
def strContains (s sub : String) : Bool :=
  listContainsSeq sub.data s.data

/-- The newline character. -/
def chr10 : Char := Char.ofNat 10

/-- Helper for `pySplitLines`. -/
def splitLinesAux : List Char → List Char → List String
  | [], acc => [String.mk acc.reverse]
  | c :: rest, acc =>
    if c == chr10 then String.mk acc.reverse :: splitLinesAux rest []
    else splitLinesAux rest (c :: acc)

/-- Python `str.split("\n")`: split on newline characters, keeping empty
pieces. -/
def pySplitLines (s : String) : List String :=
  splitLinesAux s.data []

/-- Python `int(s)`: optional surrounding whitespace, optional sign, at least
one decimal digit. -/
def pyInt? (s : String) : Option Int :=
  let t := (s.data.dropWhile (·.isWhitespace)).reverse.dropWhile (·.isWhitespace) |>.reverse
  let (sign, ds) : Int × List Char :=
    match t with
    | '-' :: rest => (-1, rest)
    | '+' :: rest => (1, rest)
    | _ => (1, t)
  if ds.isEmpty || !ds.all (·.isDigit) then Option.none
  else Option.some (sign * (ds.foldl (fun n c => 10 * n + (c.toNat - 48)) 0 : Nat))

/-- Rendering of a rational in decimal, modelling C `%g` formatting for the
short decimal settings values that occur here: integer part, then up to six
fractional digits with trailing zeros stripped. -/
def fmtG (q : ℚ) : String :=
  let sign := if q < 0 then "-" else ""
  let n := q.num.natAbs
  let d := q.den
  let intPart := n / d
  let rec fracDigits : Nat → Nat → List Nat
    | 0, _ => []
    | fuel + 1, r => (r * 10 / d) :: fracDigits fuel (r * 10 % d)
  let ds := ((fracDigits 6 (n % d)).reverse.dropWhile (· == 0)).reverse
  if ds.isEmpty then sign ++ toString intPart
  else sign ++ toString intPart ++ "." ++ String.mk (ds.map fun k => Char.ofNat (48 + k))

/-- Rendering with C `%d`: truncation toward zero, as Python `"%d" % v`. -/
def fmtD (q : ℚ) : String :=
  toString (q.num / (q.den : Int))

/-- Python `str.upper()` (ASCII keys and values only here), computed over
the character list. -/
def pyUpper (s : String) : String :=
  ⟨s.data.map Char.toUpper⟩

/-- Python `str(v)` for a settings value interpolated with `%s`. -/
def pyStr (v : PyVal) : String :=
  match v with
  | .num q => fmtG q
  | .str s => s
  | .none => "None"

/-- Plugin signature comment appended to every generated command
(`self.comment`, source line 105). -/
def pluginComment : String := ";KlipperSettingsPlugin"

/-- The idempotency marker line content (source lines 404 and 755). -/
def processedMarker : String := ";KLIPPERSETTINGSPROCESSED\n"

/-- The call sites pass `str(extruder_nr).strip('0')` as the extruder name
suffix (source lines 602 and 737): Python `strip` removes `'0'` characters
from *both* ends of the decimal string. -/
def extruderSuffix (n : Nat) : String :=
  pyStripChars (toString n) "0"

/-- `_gcodePressureAdvance` (source lines 813-827).  The comparisons
`pressure_advance >= 0` and `smooth_time > 0` raise `TypeError` when the
value is not a number; this is the error caught by the caller at
lines 604-606. -/
def gcodePressureAdvance (extruder_nr : String) (pressure_advance : PyVal)
    (smooth_time : PyVal := .num 0) : Except Unit String := do
  let gcode_command := "SET_PRESSURE_ADVANCE"
  let gcode_command ←
    match pressure_advance with
    | .num q => pure (if 0 ≤ q then gcode_command ++ " ADVANCE=" ++ fmtG q else gcode_command)
    | _ => throw ()
  let gcode_command ←
    match smooth_time with
    | .num t => pure (if 0 < t then gcode_command ++ " SMOOTH_TIME=" ++ fmtG t else gcode_command)
    | _ => throw ()
  pure (gcode_command ++ " EXTRUDER=extruder" ++ extruder_nr ++ " " ++ pluginComment)

/-- The dict comprehension of `_gcodeVelocityLimits` (source lines 834-836):
keep a non-corner limit when it is `> 0`, keep `square_corner_velocity`
when it is `>= 0`. -/
def velocityKept (velocity_limits : List (String × ℚ)) : List (String × ℚ) :=
  velocity_limits.filter fun kv =>
    (kv.1 != "square_corner_velocity" && kv.2 > 0) ||
    (kv.1 == "square_corner_velocity" && kv.2 ≥ 0)

/-- Loop body of `_gcodeVelocityLimits` (source lines 841-845): extend the
command with `KEY=value`, and record the square-corner-velocity-is-zero
warning. -/
def velocityFoldStep (override_on : Bool) (acc : String × List String)
    (kv : String × ℚ) : String × List String :=
  (acc.1 ++ pyUpper kv.1 ++ "=" ++ fmtD kv.2 ++ " ",
   if !override_on && (kv.1 == "square_corner_velocity" && kv.2 == 0) then
     acc.2 ++ ["•  Square Corner Velocity Limit = <b>0</b>"]
   else acc.2)

/-- `_gcodeVelocityLimits` (source lines 829-847).  Returns the command
(`Option.none` models the Python fall-through `None`, the "no command"
sentinel) together with the plugin's warning list, to which the formatter
appends (source line 845). -/
def gcodeVelocityLimits (velocity_limits : List (String × ℚ)) (override_on : Bool)
    (warning_msg : List String) : Option String × List String :=
  let kept := velocityKept velocity_limits
  if kept.isEmpty then (Option.none, warning_msg)
  else
    let (cmd, ws) := kept.foldl (velocityFoldStep override_on)
      ("SET_VELOCITY_LIMIT ", warning_msg)
    (Option.some cmd, ws)

/-- The dict comprehension of `_gcodeFirmwareRetraction` (source
lines 854-855): speed-type values pass when `> 0`, length-type values
when `>= 0`. -/
def retractionKept (retraction_settings : List (String × ℚ)) : List (String × ℚ) :=
  retraction_settings.filter fun kv =>
    (kv.1.endsWith "speed" && kv.2 > 0) || (kv.1.endsWith "length" && kv.2 ≥ 0)

/-- `_gcodeFirmwareRetraction` (source lines 849-863). -/
def gcodeFirmwareRetraction (retraction_settings : List (String × ℚ)) : Option String :=
  let kept := retractionKept retraction_settings
  if kept.isEmpty then Option.none
  else
    Option.some (kept.foldl
      (fun acc kv => acc ++ pyUpper kv.1 ++ "=" ++ fmtG kv.2 ++ " ")
      "SET_RETRACTION ")

/-- Association-list lookup modelling a Python dict read. -/
def pyAssocGet (l : List (String × PyVal)) (key : String) : Option PyVal :=
  (l.find? fun kv => kv.1 == key).map Prod.snd

/-- The in-place collapse at the start of `_gcodeInputShaper` (source
lines 869-871): when both shaper types are equal, `shaper_type_x` is popped,
`shaper_type_y` is deleted and a unified `shaper_type` key is appended at the
end of the dict.  A missing type key raises (`KeyError`).  This mutates the
caller's dict. -/
def shaperCollapse (shaper_settings : List (String × PyVal)) :
    Except Unit (List (String × PyVal)) :=
  match pyAssocGet shaper_settings "shaper_type_x",
        pyAssocGet shaper_settings "shaper_type_y" with
  | Option.some tx, Option.some ty =>
    pure (if pyEq tx ty then
      ((shaper_settings.filter fun kv => kv.1 != "shaper_type_x").filter
          fun kv => kv.1 != "shaper_type_y") ++ [("shaper_type", tx)]
    else shaper_settings)
  | _, _ => throw ()

/-- The dict comprehension of `_gcodeInputShaper` (source lines 874-875): a
`..type..` key (position 7) passes unless its value is `"disabled"`, any
other key needs a numeric value `>= 0` (a non-number raises `TypeError`
there). -/
def shaperFilter : List (String × PyVal) → Except Unit (List (String × PyVal))
  | [] => pure []
  | kv :: rest => do
    let keep ←
      if pyStartswith kv.1 "type" 7 then pure (!pyEq kv.2 (.str "disabled"))
      else
        match kv.2 with
        | .num q => pure (decide (0 ≤ q))
        | _ => (throw () : Except Unit Bool)
    let r ← shaperFilter rest
    pure (if keep then kv :: r else r)

/-- The aggregated zero-value warning message (source line 887). -/
def shaperWarning (value_warnings : Nat) : String :=
  "•  <b>" ++ toString value_warnings ++ "</b> Input Shaper setting(s) = <b>0</b>"

/-- The command-building loop of `_gcodeInputShaper` (source lines 882-884):
a type value is uppercased (raising if it is not a string), any value is
rendered with `%s`. -/
def shaperRender (kept : List (String × PyVal)) : Except Unit String :=
  kept.foldlM
    (fun (acc : String) kv => do
      let v ←
        if pyStartswith kv.1 "type" 7 then
          match kv.2 with
          | .str s => pure (PyVal.str (pyUpper s))
          | _ => (throw () : Except Unit PyVal)
        else pure kv.2
      pure (acc ++ pyUpper kv.1 ++ "=" ++ pyStr v ++ " "))
    "SET_INPUT_SHAPER "

/-- `_gcodeInputShaper` (source lines 865-889).  The result carries the
command (`Option.none` is the fall-through "no command" sentinel), the final
state of the argument dict (mutated by the collapse), and the warning list. -/
def gcodeInputShaper (shaper_settings : List (String × PyVal)) (override_on : Bool)
    (warning_msg : List String) :
    Except Unit (Option String × List (String × PyVal) × List String) := do
  let ss ← shaperCollapse shaper_settings
  let kept ← shaperFilter ss
  let value_warnings := (kept.filter fun kv => pyEqZero kv.2).length
  if kept.isEmpty then pure (Option.none, ss, warning_msg)
  else do
    let cmd ← shaperRender kept
    let ws :=
      if !override_on && value_warnings != 0 then
        warning_msg ++ [shaperWarning value_warnings]
      else warning_msg
    pure (Option.some cmd, ss, ws)

/-- The nine tuning tower settings, with the types their setting definitions
guarantee (strings are validated by the settings layer's input patterns).
The field order is the order of `__tuning_tower_setting_key`
(source lines 1467-1478). -/
structure TowerSettings where
  tuning_method : String
  command : String
  parameter : String
  start : ℚ
  skip : ℚ
  factor : ℚ
  band : ℚ
  step_delta : ℚ
  step_height : ℚ
deriving DecidableEq, Repr

/-- The ordered `(key, value)` view of the `tower_settings` dict built at
source lines 517-520. -/
def towerEntries (ts : TowerSettings) : List (String × PyVal) :=
  [("tuning_method", .str ts.tuning_method), ("command", .str ts.command),
   ("parameter", .str ts.parameter), ("start", .num ts.start),
   ("skip", .num ts.skip), ("factor", .num ts.factor), ("band", .num ts.band),
   ("step_delta", .num ts.step_delta), ("step_height", .num ts.step_height)]

/-- The `gcode_settings` dict of `_gcodeTuningTower` after dropping an
optional `skip`/`band` entry whose value is exactly 0 (source
lines 903-905). -/
def towerGcodeSettings (ts : TowerSettings) : List (String × PyVal) :=
  (towerEntries ts).filter fun kv =>
    !((kv.1 == "skip" || kv.1 == "band") && pyEqZero kv.2)

/-- The fixed-up `command` value (source lines 908-911): strip stray
whitespace, single quotes and `=` from both ends, then wrap in single quotes
when more than one whitespace-separated word remains. -/
def towerCommandValue (command : String) : String :=
  let c := pyStripChars command " \t'="
  if (pySplitWs c).length > 1 then "'" ++ c ++ "'" else c

/-- The parameter list actually rendered into the `TUNING_TOWER` command:
`command` replaced by its fixed-up value, `tuning_method` popped, and the
method-based exclusions applied (source lines 908-922). -/
def towerParams (ts : TowerSettings) : List (String × String) :=
  let gs := (towerGcodeSettings ts).map fun kv =>
    if kv.1 == "command" then (kv.1, PyVal.str (towerCommandValue ts.command)) else kv
  let method := ts.tuning_method
  (gs.filter fun kv =>
      !(kv.1 == "tuning_method") &&
      !(method == "factor" && (kv.1 == "step_delta" || kv.1 == "step_height")) &&
      !(method == "step" && (kv.1 == "factor" || kv.1 == "band"))).map
    fun kv => (kv.1, pyStr kv.2)

/-- `_gcodeTuningTower` (source lines 891-932).  Always returns a command for
a well-shaped settings dict, and appends the tuning tower warning message to
the plugin's warning list.  `multi_extruder` is
`len(used_extruder_stacks) > 1` read from the application at line 899. -/
def gcodeTuningTower (ts : TowerSettings) (multi_extruder : Bool)
    (warning_msg : List String) : String × List String :=
  let gcode_command := (towerParams ts).foldl
    (fun acc kv => acc ++ pyUpper kv.1 ++ "=" ++ kv.2 ++ " ") "TUNING_TOWER "
  let w1 := "<i>Tuning Tower is Active:</i><br/>" ++ gcode_command ++ "<br/><br/>"
  let w2 :=
    if multi_extruder then
      w1 ++ "<b><i>Tuning Tower</i> with multiple extruders could be unpredictable!</b><br/><br/>"
    else w1
  let w3 := w2 ++ "<i>Tuning tower calibration affects <b>all objects</b> on the build plate.</i>"
  (gcode_command, warning_msg ++ [w3])

/-! ## The post-process gcode loop (source lines 649-743)

The loop is embedded specialized to the pressure advance control path: the
firmware retraction and z-offset features are disabled in every configuration
considered here (`extruder_fw_retraction = None`, `z_offset_layer_0 = 0`), so
their branches in the loop body are unreachable and are omitted. -/

/-- Tables and parameters the loop reads (built at source lines 567-646). -/
structure PAConfig where
  start_extruder_nr : Nat
  active_extruder_list : List Nat
  extruder_factors : Nat → String → ℚ
  per_mesh_factors : List ((String × String) × ℚ)
  active_mesh_features : List String

/-- The loop's running state (source lines 652-655 and the loop locals). -/
structure ScanState where
  extruder_nr : Nat
  current_layer_nr : Int
  current_mesh : Option String
  feature_type : String
  new_layer : Bool
  feature_type_error : Bool
  current_factor : Nat → Option ℚ

/-- `per_mesh_factors.get((current_mesh, feature_type))` — the key can only
match when a mesh name has been seen (`current_mesh` starts as `None`). -/
def perMeshGet (pm : List ((String × String) × ℚ)) (mesh : Option String)
    (feature : String) : Option ℚ :=
  match mesh with
  | Option.some m => (pm.find? fun kv => kv.1.1 == m && kv.1.2 == feature).map Prod.snd
  | Option.none => Option.none

/-- The loop's insert at source lines 736-737: `_gcodePressureAdvance` called
with the stripped extruder number and the resolved factor only (the smooth
time argument defaults to 0); both values are numeric so the formatter
cannot fail. -/
def paCommand (extruder_nr : Nat) (factor : ℚ) : String :=
  match gcodePressureAdvance (extruderSuffix extruder_nr) (.num factor) with
  | .ok s => s
  | .error _ => ""

/-- The `apply_new_factor` block (source lines 726-738): resolve the value
from the per-mesh table with the extruder table as fallback, clear
`new_layer`, and when the value differs from the last one emitted for the
active extruder record it and produce the command to insert. -/
def applyFactor (cfg : PAConfig) (st : ScanState) : ScanState × Option String :=
  let pressure_advance_factor : ℚ :=
    (perMeshGet cfg.per_mesh_factors st.current_mesh st.feature_type).getD
      (cfg.extruder_factors st.extruder_nr st.feature_type)
  let st := { st with new_layer := false }
  if st.current_factor st.extruder_nr ≠ Option.some pressure_advance_factor then
    ({ st with current_factor := fun n =>
        if n = st.extruder_nr then Option.some pressure_advance_factor
        else st.current_factor n },
     Option.some (paCommand st.extruder_nr pressure_advance_factor))
  else (st, Option.none)

/-- One line of the loop body (source lines 660-738).  The result is the new
state and, when a command is inserted, the command together with its
placement: `true` inserts immediately after the current line (feature-type
marker, `line_nr += 1` at line 724), `false` inserts before it (the
mesh-marker correction path). -/
def stepLine (cfg : PAConfig) (st : ScanState) (line : String) :
    ScanState × Option (Bool × String) :=
  -- ;LAYER: marker (lines 663-669)
  let st :=
    if pyStartswith line ";LAYER:" then
      let st :=
        match pyInt? (pyDrop line 7) with
        | Option.some n => { st with current_layer_nr := n }
        | Option.none => st   -- unparseable layer number: keep previous
      { st with new_layer := !cfg.active_mesh_features.isEmpty }
    else st
  -- tool change token (lines 683-694); the retraction insert is disabled
  let st :=
    if cfg.active_extruder_list.length > 1 &&
        cfg.active_extruder_list.any (fun i => line == "T" ++ toString i) then
      match pyInt? (pyDrop line 1) with
      | Option.some n => { st with extruder_nr := n.toNat }
      | Option.none => st
    else st
  -- ;MESH: marker (lines 702-709)
  if pyStartswith line ";MESH:" && pyDrop line 6 != "NONMESH" then
    let st := { st with current_mesh := Option.some (pyDrop line 6) }
    if !st.feature_type_error then (st, Option.none)
    else
      let st := { st with feature_type_error := false }
      let (st, cmd) := applyFactor cfg st
      (st, cmd.map fun c => (false, c))
  -- ;TYPE: marker (lines 711-724)
  else if pyStartswith line ";TYPE:" then
    let ft := pyDrop line 6
    let ft := if st.current_layer_nr ≤ 0 ∧ ft ≠ "SKIRT" then "LAYER_0" else ft
    let st := { st with feature_type := ft }
    if st.new_layer && cfg.active_mesh_features.contains ft then
      ({ st with feature_type_error := true }, Option.none)
    else
      let (st, cmd) := applyFactor cfg st
      (st, cmd.map fun c => (true, c))
  else (st, Option.none)

/-- The scan over one layer's line buffer (source lines 660-738).  The source
iterates over the live list while inserting into it, so each inserted line is
itself visited: an inserted `SET_PRESSURE_ADVANCE ...` line matches none of
the marker tests and passes through unchanged, and the mesh line revisited
after a before-insert only re-stores the same mesh name with
`feature_type_error` already cleared; the structural recursion below is
therefore equivalent to the live-list iteration. -/
def scanLines (cfg : PAConfig) (st : ScanState) :
    List String → List String × ScanState × Bool
  | [] => ([], st, false)
  | line :: rest =>
    let (st1, ins) := stepLine cfg st line
    let (out, st2, changed) := scanLines cfg st1 rest
    match ins with
    | Option.none => (line :: out, st2, changed)
    | Option.some (true, cmd) => (line :: cmd :: out, st2, true)
    | Option.some (false, cmd) => (cmd :: line :: out, st2, true)

/-- One layer of the loop (source lines 657-658 and 740-743): split on
newlines, scan, and rejoin only when a line buffer was mutated. -/
def scanLayer (cfg : PAConfig) (st : ScanState) (layer : String) :
    String × ScanState × Bool :=
  let lines := pySplitLines layer
  let (out, st, changed) := scanLines cfg st lines
  (if changed then String.intercalate "\n" out else layer, st, changed)

/-- The loop's initial state (source lines 652-655).  `new_layer` and
`feature_type` are uninitialized locals in the source, first assigned at the
corresponding marker lines; they are given inert defaults here. -/
def initialScanState (cfg : PAConfig) (current_factor : Nat → Option ℚ) : ScanState :=
  { extruder_nr := cfg.start_extruder_nr, current_layer_nr := -1,
    current_mesh := Option.none, feature_type := "", new_layer := false,
    feature_type_error := false, current_factor := current_factor }

/-- The whole-plate loop over `enumerate(gcode_list)`; state persists across
layers, and the change flag is the disjunction of the per-layer flags. -/
def scanPlate (cfg : PAConfig) (current_factor : Nat → Option ℚ)
    (gcode_list : List String) : List String × Bool :=
  let step := fun (acc : List String × ScanState × Bool) (layer : String) =>
    let (layer', st', ch) := scanLayer cfg acc.2.1 layer
    (acc.1 ++ [layer'], st', acc.2.2 || ch)
  let (out, _, changed) :=
    gcode_list.foldl step ([], initialScanState cfg current_factor, false)
  (out, changed)

/-! ## The plate pipeline of `_filterGcode` (source lines 390-757)

Embedded specialized to the velocity limits, tuning tower and pressure
advance features; the experimental features, firmware retraction, input
shaper, smooth time and z-offset enable flags are `False` in every
configuration considered here, so their sections reduce to their disabled
branches and are omitted. -/

/-- `re.search(r"(?m)^T([0-9])+$", ...)` applied to one line: the line must be
`T` followed by one or more digits; the repeated capture group `([0-9])+`
retains only its last repetition, so `group(1)` is the final digit. -/
def toolchangeMatch (line : String) : Option Nat :=
  match line.data with
  | 'T' :: ds =>
    if !ds.isEmpty && ds.all (·.isDigit) then
      Option.some (((ds.getLast?).getD '0').toNat - 48)
    else Option.none
  | _ => Option.none

/-- The start-sequence tool change search (source lines 408-413): first line
of the start gcode matching `^T([0-9])+$`, yielding `int(match.group(1))`. -/
def searchToolchange (gcode : String) : Option Nat :=
  (pySplitLines gcode).findSome? toolchangeMatch

/-- The keys of `__pressure_advance_setting_key` in order
(source lines 1451-1464). -/
def paFeatureKeys : List String :=
  ["_FACTORS", "_WALLS", "_SUPPORTS", "LAYER_0", "WALL-OUTER", "WALL-INNER",
   "SKIN", "FILL", "SUPPORT", "SUPPORT-INTERFACE", "PRIME-TOWER", "SKIRT"]

/-- The fan-out of an aggregate parent key to its child features
(source lines 631-635). -/
def aggregateChildren (feature_key : String) : List String :=
  if feature_key == "_FACTORS" then ["WALL-OUTER", "WALL-INNER", "SKIN", "FILL"]
  else if feature_key == "_WALLS" then ["WALL-OUTER", "WALL-INNER"]
  else if feature_key == "_SUPPORTS" then ["SUPPORT", "SUPPORT-INTERFACE"]
  else [feature_key]

/-- A printable mesh node as seen by the per-object settings pass
(source lines 618-626): name, assigned extruder, and the per-feature
instance overrides it carries. -/
structure MeshSpec where
  name : String
  extruder_nr : Nat
  overrides : List (String × ℚ)

/-- The inputs `_filterGcode` reads from the settings stacks and the scene
before touching the gcode. -/
structure KSettings where
  velocity_limits_enabled : Bool
  tuning_tower_enabled : Bool
  pressure_advance_enabled : Bool
  velocity_limits : List (String × ℚ)
  tower_settings : TowerSettings
  used_extruders : List Nat
  pa_primary : Nat → PyVal
  pa_features : Nat → String → ℚ
  meshes : List MeshSpec
  override_on : Bool
  fallback_extruder_nr : Nat

/-- Python dict assignment on the per-mesh factor table: overwrite an
existing key, else append. -/
def assocUpd (pm : List ((String × String) × ℚ)) (key : String × String) (v : ℚ) :
    List ((String × String) × ℚ) :=
  if pm.any fun kv => kv.1 == key then
    pm.map fun kv => if kv.1 == key then (kv.1, v) else kv
  else pm ++ [(key, v)]

/-- Per-extruder setup of the pressure advance section (source
lines 579-606) with smooth time disabled (`smooth_time_factor` stays 0).
For each used extruder, the extruder is flagged when some feature setting
differs from its primary value, and the initial `SET_PRESSURE_ADVANCE`
command is appended to `new_gcode_commands`.  A primary value the formatter
cannot compare with 0 raises `TypeError`; the handler at lines 604-606 stops
the invocation (its log call references an undefined name, so either the
`return` or the raised `NameError` ends processing here). -/
def paSetup (cfg : KSettings) (ncmds : String) :
    Except Unit (String × (Nat → Option ℚ) × List Nat) :=
  cfg.used_extruders.foldlM
    (fun (acc : String × (Nat → Option ℚ) × List Nat) nr => do
      let (ncmds, cf, flagged) := acc
      let primary := cfg.pa_primary nr
      let flagged :=
        if paFeatureKeys.any (fun k => !pyEq (.num (cfg.pa_features nr k)) primary) then
          if flagged.contains nr then flagged else flagged ++ [nr]
        else flagged
      let cmd ← gcodePressureAdvance (extruderSuffix nr) primary (.num 0)
      let cf : Nat → Option ℚ :=
        match primary with
        | .num q => fun n => if n = nr then Option.some q else cf n
        | _ => cf
      pure (ncmds ++ cmd ++ "\n", cf, flagged))
    (ncmds, fun _ => Option.none, [])

/-- The per-object settings pass (source lines 618-639): every instance
override on a mesh fans out to the aggregate's child features, filling the
per-mesh factor table, the set of per-object features, and flagging the
mesh's extruder. -/
def meshSetup (cfg : KSettings) (flagged : List Nat) :
    List ((String × String) × ℚ) × List String × List Nat :=
  cfg.meshes.foldl
    (fun acc node =>
      paFeatureKeys.foldl
        (fun (acc : List ((String × String) × ℚ) × List String × List Nat) feature_key =>
          match (node.overrides.find? fun kv => kv.1 == feature_key).map Prod.snd with
          | Option.none => acc
          | Option.some v =>
            (aggregateChildren feature_key).foldl
              (fun (acc : List ((String × String) × ℚ) × List String × List Nat) feature =>
                let (pm, amf, fl) := acc
                (assocUpd pm (node.name, feature) v,
                 if amf.contains feature then amf else amf ++ [feature],
                 if fl.contains node.extruder_nr then fl else fl ++ [node.extruder_nr]))
              acc)
        acc)
    ([], [], flagged)

/-- Invocation-level accumulator: `new_gcode_commands` (initialized once at
source line 397, never reset between plates), the `gcode_changed` flag
(line 395), and the plugin's warning list. -/
structure PlateAcc where
  ncmds : String
  changed : Bool
  warnings : List String

/-- Source lines 745-750: prepend the accumulated start commands to the
plate's start sequence (layer 1) when any were produced. -/
def finishPlate (gcode_list : List String) (acc : PlateAcc) :
    List String × PlateAcc :=
  if acc.ncmds.isEmpty then (gcode_list, acc)
  else (gcode_list.set 1 (acc.ncmds ++ "\n" ++ gcode_list.getD 1 ""),
        { acc with changed := true })

/-- One iteration of the plate loop (source lines 399-750).  The error case
models the mid-plate `return`s (lines 527, 606, 616): the whole invocation
stops, and the plate keeps whatever in-place mutations were already applied
to it; the warning list accumulated so far is carried along. -/
def processPlate (cfg : KSettings) (acc : PlateAcc) (gcode_list : List String) :
    Except (List String × List String) (List String × PlateAcc) :=
  if gcode_list.length < 2 then pure (gcode_list, acc)     -- line 401
  else if strContains (gcode_list.headD "") processedMarker then
    pure (gcode_list, acc)                                 -- lines 404-406
  else
    let start_extruder_nr :=
      (searchToolchange (gcode_list.getD 1 "")).getD cfg.fallback_extruder_nr
    -- velocity limits (lines 486-497): a `None` result raises `TypeError`
    -- before anything is appended, which the handler only logs
    let acc :=
      if cfg.velocity_limits_enabled then
        let (opt, ws) := gcodeVelocityLimits cfg.velocity_limits cfg.override_on acc.warnings
        match opt with
        | Option.some c =>
          { acc with ncmds := acc.ncmds ++ c ++ pluginComment ++ "\n", warnings := ws }
        | Option.none => { acc with warnings := ws }
      else acc
    -- tuning tower (lines 513-527): the command is appended to the start
    -- sequence in place; with well-shaped settings the formatter returns
    let (gcode_list, acc) :=
      if cfg.tuning_tower_enabled then
        let (cmd, ws) :=
          gcodeTuningTower cfg.tower_settings (cfg.used_extruders.length > 1) acc.warnings
        (gcode_list.set 1 (gcode_list.getD 1 "" ++ cmd ++ pluginComment ++ "\n"),
         { acc with changed := true, warnings := ws })
      else (gcode_list, acc)
    -- pressure advance (lines 563-646), smooth time disabled
    if !cfg.pressure_advance_enabled then pure (finishPlate gcode_list acc)
    else
      match paSetup cfg acc.ncmds with
      | .error _ => throw (gcode_list, acc.warnings)       -- line 606
      | .ok (ncmds, cf, flagged) =>
        let acc := { acc with ncmds := ncmds }
        if cfg.meshes.isEmpty then
          throw (gcode_list, acc.warnings)                 -- lines 614-616
        else
          let (pm, amf, flagged) := meshSetup cfg flagged
          -- lines 641-646: without any flagged extruder the per-feature pass
          -- is switched off, and (z offset and retraction being disabled)
          -- the loop gate at line 651 is then false
          let (gcode_list, acc) :=
            if !flagged.isEmpty then
              let pacfg : PAConfig :=
                { start_extruder_nr := start_extruder_nr,
                  active_extruder_list := flagged,
                  extruder_factors := cfg.pa_features,
                  per_mesh_factors := pm,
                  active_mesh_features := amf }
              let (out, ch) := scanPlate pacfg cf gcode_list
              (out, { acc with changed := acc.changed || ch })
            else (gcode_list, acc)
          pure (finishPlate gcode_list acc)

/-- The finalize block (source lines 752-757).  It sits *after* the plate
loop, so `gcode_list` refers to the plate of the last iteration: the marker
is appended to the last plate's preamble only.  (Appending to an empty plate
would raise in the source; it cannot arise below.) -/
def markLast (job : List (List String)) : List (List String) :=
  match job.getLast? with
  | Option.none => job
  | Option.some last =>
    job.dropLast ++ [last.set 0 (last.getD 0 "" ++ processedMarker)]

/-- The plate loop with the trailing finalize block. -/
def filterGcodeGo (cfg : KSettings) (acc : PlateAcc) (done : List (List String)) :
    List (List String) → List (List String) × List String
  | [] => (if acc.changed then markLast done else done, acc.warnings)
  | plate :: rest =>
    match processPlate cfg acc plate with
    | .ok (plate', acc') => filterGcodeGo cfg acc' (done ++ [plate']) rest
    | .error (plate', ws) => (done ++ [plate'] ++ rest, ws)

/-- `_filterGcode` over one job (the scene's `gcode_dict`, an ordered map of
plates): returns the job's plates after the invocation, and the warning
list.  An empty job returns unmodified (source lines 390-393). -/
def filterGcode (cfg : KSettings) (job : List (List String)) :
    List (List String) × List String :=
  if job.isEmpty then (job, [])
  else filterGcodeGo cfg ⟨"", false, []⟩ [] job

/-! ## Reference quantities and concrete instances used by the theorems -/

/-- Reference sequence of the values the loop resolves at the feature-type
markers of a line stream, tracking the layer counter exactly as the loop
does, for a fixed extruder and an empty per-mesh table (the resolution then
always falls back to the extruder table). -/
def resolvedSeq (cfg : PAConfig) (ext : Nat) : Int → List String → List ℚ
  | _, [] => []
  | layerNr, line :: rest =>
    if pyStartswith line ";LAYER:" then
      resolvedSeq cfg ext
        (match pyInt? (pyDrop line 7) with
         | Option.some n => n
         | Option.none => layerNr) rest
    else if pyStartswith line ";TYPE:" then
      let ft := pyDrop line 6
      let ft := if layerNr ≤ 0 ∧ ft ≠ "SKIRT" then "LAYER_0" else ft
      cfg.extruder_factors ext ft :: resolvedSeq cfg ext layerNr rest
    else resolvedSeq cfg ext layerNr rest

/-- Number of positions at which a value sequence differs from its
predecessor, seeded with the last value emitted before the scan: the number
of distinct consecutive resolved values counted from the start-sequence
emission. -/
def countChanges (prev : Option ℚ) : List ℚ → Nat
  | [] => 0
  | v :: rest =>
    if Option.some v ≠ prev then 1 + countChanges (Option.some v) rest
    else countChanges prev rest

/-- Extruder factor table shaped like the spec's worked example (primary
factor with a distinct infill override); integer-valued rationals are used so
that concrete runs are kernel-decidable. -/
def exampleFactors : Nat → String → ℚ :=
  fun _ ft => if ft == "FILL" then 6 else 4

/-- Loop configuration of the worked example: one extruder, no per-object
overrides. -/
def exampleScanConfig : PAConfig :=
  { start_extruder_nr := 0, active_extruder_list := [0],
    extruder_factors := exampleFactors, per_mesh_factors := [],
    active_mesh_features := [] }

/-- Start-sequence emission state of the worked example: the primary factor
already emitted for extruder 0. -/
def exampleInitialFactor : Nat → Option ℚ :=
  fun n => if n = 0 then Option.some 4 else Option.none

/-- Loop configuration with a per-object infill override on mesh `m`:
`active_mesh_features` is then nonempty. -/
def deferralScanConfig : PAConfig :=
  { start_extruder_nr := 0, active_extruder_list := [0],
    extruder_factors := fun _ _ => 4,
    per_mesh_factors := [(("m", "FILL"), 6)],
    active_mesh_features := ["FILL"] }

/-- A typical velocity limits settings dict. -/
def velocityExample : List (String × ℚ) :=
  [("velocity", 300), ("accel", 3000), ("accel_to_decel", 1500),
   ("square_corner_velocity", 5)]

/-- A well-formed tuning tower settings set (a speed-factor tower). -/
def towerExample : TowerSettings :=
  { tuning_method := "factor", command := "M220", parameter := "S",
    start := 75, skip := 0, factor := 2, band := 2, step_delta := 3,
    step_height := 4 }

/-- Invocation settings: only velocity limits enabled. -/
def velocityOnlySettings : KSettings :=
  { velocity_limits_enabled := true, tuning_tower_enabled := false,
    pressure_advance_enabled := false, velocity_limits := velocityExample,
    tower_settings := towerExample, used_extruders := [0],
    pa_primary := fun _ => .num 0, pa_features := fun _ _ => 0,
    meshes := [], override_on := false, fallback_extruder_nr := 0 }

/-- A job of two plates, both processable and not yet marked. -/
def twoPlateJob : List (List String) :=
  [["; plate 1 preamble", "G28"], ["; plate 2 preamble", "G28"]]

/-- Invocation settings: tuning tower enabled with valid settings, pressure
advance enabled but with a non-numeric primary factor on extruder 0 (the
resolution error of the error handling design). -/
def abortSettings : KSettings :=
  { velocity_limits_enabled := false, tuning_tower_enabled := true,
    pressure_advance_enabled := true, velocity_limits := [],
    tower_settings := towerExample, used_extruders := [0],
    pa_primary := fun _ => .str "not a number",
    pa_features := fun _ _ => 4/100,
    meshes := [{ name := "m", extruder_nr := 0, overrides := [] }],
    override_on := false, fallback_extruder_nr := 0 }

/-- The text the tuning tower section appends to a plate's start sequence
under `abortSettings` (source line 522). -/
def towerAbortInsert : String :=
  (gcodeTuningTower towerExample false []).1 ++ pluginComment ++ "\n"

/-- An input shaper settings dict with equal shaper types. -/
def shaperExample : List (String × PyVal) :=
  [("shaper_freq_x", .num 50), ("shaper_freq_y", .num 40),
   ("shaper_type_x", .str "mzv"), ("shaper_type_y", .str "mzv"),
   ("damping_ratio_x", .num 1), ("damping_ratio_y", .num 0)]

/-- An input shaper settings dict with two included values equal to zero. -/
def shaperTwoZeroExample : List (String × PyVal) :=
  [("shaper_freq_x", .num 50), ("shaper_freq_y", .num 0),
   ("shaper_type_x", .str "mzv"), ("shaper_type_y", .str "mzv"),
   ("damping_ratio_x", .num 1), ("damping_ratio_y", .num 0)]

/-! ## Helper lemmas -/

theorem pyStartswith_self_append (p t : String) : pyStartswith (p ++ t) p = true := by
  simp [pyStartswith, String.data_append, List.isPrefixOf_iff_prefix, List.prefix_append]

theorem pyStartswith_false_of_startswith {l p1 : String} (p2 : String)
    (h : pyStartswith l p1 = true)
    (h1 : p1.data.isPrefixOf p2.data = false)
    (h2 : p2.data.isPrefixOf p1.data = false) : pyStartswith l p2 = false := by
  rw [Bool.eq_false_iff]
  intro hb
  have hp1 : p1.data <+: l.data := by
    simpa [pyStartswith, List.isPrefixOf_iff_prefix] using h
  have hp2 : p2.data <+: l.data := by
    simpa [pyStartswith, List.isPrefixOf_iff_prefix] using hb
  rcases List.prefix_or_prefix_of_prefix hp1 hp2 with hc | hc
  · exact absurd (List.isPrefixOf_iff_prefix.mpr hc) (by simp [h1])
  · exact absurd (List.isPrefixOf_iff_prefix.mpr hc) (by simp [h2])

theorem pyDrop_prefix_append {p : String} (t : String) {n : Nat}
    (hn : p.data.length = n) : pyDrop (p ++ t) n = t := by
  have : (p ++ t).data.drop n = t.data := by
    rw [String.data_append, ← hn, List.drop_left]
  simpa [pyDrop] using congrArg String.mk this

/-! ## C4 — pressure advance formatter -/

/-- **C4, counterexample**: the claim asserts that index 10 renders as
`extruder10`; in the code `str(10).strip('0')` also removes the *trailing*
zero, so index 10 renders as `extruder1`. -/
theorem C4_counterexample :
    extruderSuffix 10 = "1" ∧ extruderSuffix 10 ≠ "10" ∧
    gcodePressureAdvance (extruderSuffix 10) (.num 3) (.num 0)
      = .ok "SET_PRESSURE_ADVANCE ADVANCE=3 EXTRUDER=extruder1 ;KlipperSettingsPlugin" := by
  refine ⟨by decide, by decide, by decide⟩

/-- **C4 (amended)**: for numeric inputs the pressure-advance formatter emits
`ADVANCE=<factor>` iff `factor ≥ 0`, `SMOOTH_TIME=<t>` iff `t > 0`, and
always the mandatory `EXTRUDER=extruder<suffix>` parameter, where the suffix
strips `'0'` characters from *both* ends of the decimal index (index 0
renders as the empty suffix; indices without leading or trailing zeros are
kept verbatim). -/
theorem C4_pressure_advance_format (n : Nat) (q t : ℚ) :
    (∃ adv sm,
      gcodePressureAdvance (extruderSuffix n) (.num q) (.num t)
        = .ok ("SET_PRESSURE_ADVANCE" ++ adv ++ sm ++ " EXTRUDER=extruder" ++
            extruderSuffix n ++ " " ++ pluginComment) ∧
      adv = (if 0 ≤ q then " ADVANCE=" ++ fmtG q else "") ∧
      sm = (if 0 < t then " SMOOTH_TIME=" ++ fmtG t else "")) ∧
    extruderSuffix 0 = "" ∧ extruderSuffix 7 = "7" ∧ extruderSuffix 12 = "12" := by
  refine ⟨⟨if 0 ≤ q then " ADVANCE=" ++ fmtG q else "",
          if 0 < t then " SMOOTH_TIME=" ++ fmtG t else "", ?_, rfl, rfl⟩,
         by decide, by decide, by decide⟩
  by_cases hq : 0 ≤ q <;> by_cases ht : 0 < t <;>
    simp [gcodePressureAdvance, hq, ht, pure, Except.pure, Bind.bind, Except.bind,
      ← String.append_assoc, String.append_empty]

/-! ## C6 — velocity limits formatter -/

/-- **C6**: velocity, accel and accel-to-decel are included iff `> 0`,
`square_corner_velocity` iff `≥ 0`; the "no command" sentinel is returned
exactly when the kept parameter set is empty; and the all-zero input yields
a command containing only `SQUARE_CORNER_VELOCITY=0` plus one recorded
warning. -/
theorem C6_velocity_limits (v a d s : ℚ) (w : List String) :
    ((velocityKept
        [("velocity", v), ("accel", a), ("accel_to_decel", d),
         ("square_corner_velocity", s)]).map Prod.fst
      = (if 0 < v then ["velocity"] else []) ++ (if 0 < a then ["accel"] else []) ++
        (if 0 < d then ["accel_to_decel"] else []) ++
        (if 0 ≤ s then ["square_corner_velocity"] else [])) ∧
    ((gcodeVelocityLimits
        [("velocity", v), ("accel", a), ("accel_to_decel", d),
         ("square_corner_velocity", s)] false w).1 = Option.none ↔
      velocityKept
        [("velocity", v), ("accel", a), ("accel_to_decel", d),
         ("square_corner_velocity", s)] = []) ∧
    gcodeVelocityLimits
        [("velocity", 0), ("accel", 0), ("accel_to_decel", 0),
         ("square_corner_velocity", 0)] false w
      = (Option.some "SET_VELOCITY_LIMIT SQUARE_CORNER_VELOCITY=0 ",
         w ++ ["•  Square Corner Velocity Limit = <b>0</b>"]) := by
  refine ⟨?_, ?_, ?_⟩
  · by_cases h1 : 0 < v <;> by_cases h2 : 0 < a <;> by_cases h3 : 0 < d <;>
      by_cases h4 : 0 ≤ s <;>
      simp [velocityKept, h1, h2, h3, h4]
  · rcases h : velocityKept
        [("velocity", v), ("accel", a), ("accel_to_decel", d),
         ("square_corner_velocity", s)] with _ | ⟨kv, rest⟩ <;>
      simp [gcodeVelocityLimits, h]
  · rfl

/-! ## C10 — start-sequence tool change search -/

/-- **C10**: the repeated capture group of `^T([0-9])+$` retains only its
last digit, so any single-digit tool change yields the correct index, while
a two-digit index `1k` yields `k` (the final digit): `T10` gives extruder 0
and `T12` gives extruder 2. -/
theorem C10_toolchange_last_digit :
    (∀ d : Nat, d < 10 → searchToolchange ("T" ++ toString d) = Option.some d) ∧
    (∀ k : Nat, k < 10 → searchToolchange ("T1" ++ toString k) = Option.some k) ∧
    searchToolchange "G28\nT10\nG1 X0" = Option.some 0 ∧
    searchToolchange "M104 S200\nT12" = Option.some 2 := by
  refine ⟨?_, ?_, by decide, by decide⟩
  · intro d hd
    interval_cases d <;> decide
  · intro k hk
    interval_cases k <;> decide

/-- **C10, witness**: the theorem applied at the single-digit line `T7` and
the two-digit line `T10`. -/
theorem C10_witness :
    searchToolchange ("T" ++ toString 7) = Option.some 7 ∧
    searchToolchange ("T1" ++ toString 0) = Option.some 0 :=
  ⟨C10_toolchange_last_digit.1 7 (by norm_num),
   C10_toolchange_last_digit.2.1 0 (by norm_num)⟩

/-! ## C7 — tuning tower formatter -/

/-- **C7**: `skip` and `band` are dropped exactly when 0, method `"factor"`
excludes `step_delta`/`step_height`, method `"step"` excludes
`factor`/`band`; the command value is trimmed and re-quoted with single
quotes exactly when more than one whitespace-separated word remains
(`"G1 X10"` renders quoted, `"G1"` unquoted). -/
theorem C7_tuning_tower (ts : TowerSettings) :
    ("skip" ∈ (towerParams ts).map Prod.fst ↔ ts.skip ≠ 0) ∧
    ("band" ∈ (towerParams ts).map Prod.fst ↔
      (ts.band ≠ 0 ∧ ts.tuning_method ≠ "step")) ∧
    ("factor" ∈ (towerParams ts).map Prod.fst ↔ ts.tuning_method ≠ "step") ∧
    ("step_delta" ∈ (towerParams ts).map Prod.fst ↔ ts.tuning_method ≠ "factor") ∧
    ("step_height" ∈ (towerParams ts).map Prod.fst ↔ ts.tuning_method ≠ "factor") ∧
    "tuning_method" ∉ (towerParams ts).map Prod.fst ∧
    (towerParams ts).lookup "command" = Option.some (towerCommandValue ts.command) ∧
    towerCommandValue "G1 X10" = "'G1 X10'" ∧
    towerCommandValue "G1" = "G1" := by
  by_cases hm1 : ts.tuning_method = "factor" <;>
    by_cases hm2 : ts.tuning_method = "step" <;>
    by_cases hs : ts.skip = 0 <;>
    by_cases hb : ts.band = 0 <;>
    simp_all [towerParams, towerGcodeSettings, towerEntries, pyEqZero, pyStr,
      towerCommandValue] <;>
    decide

/-! ## C8 — input shaper formatter -/

theorem shaperFilter_num_cons (k : String) (q : ℚ) (rest : List (String × PyVal))
    (hk : pyStartswith k "type" 7 = false) :
    shaperFilter ((k, .num q) :: rest)
      = (shaperFilter rest).map fun r => if 0 ≤ q then (k, .num q) :: r else r := by
  cases hr : shaperFilter rest <;>
    simp [shaperFilter, hk, hr, Bind.bind, Except.bind, Except.map, pure, Except.pure]

theorem shaperFilter_str_cons (k : String) (v : String) (rest : List (String × PyVal))
    (hk : pyStartswith k "type" 7 = true) :
    shaperFilter ((k, .str v) :: rest)
      = (shaperFilter rest).map fun r => if v = "disabled" then r else (k, .str v) :: r := by
  cases hr : shaperFilter rest <;>
    simp [shaperFilter, hk, hr, pyEq, Bind.bind, Except.bind, Except.map, pure,
      Except.pure]

theorem shaperKeys_pos7 :
    pyStartswith "shaper_freq_x" "type" 7 = false ∧
    pyStartswith "shaper_freq_y" "type" 7 = false ∧
    pyStartswith "damping_ratio_x" "type" 7 = false ∧
    pyStartswith "damping_ratio_y" "type" 7 = false ∧
    pyStartswith "shaper_type_x" "type" 7 = true ∧
    pyStartswith "shaper_type_y" "type" 7 = true ∧
    pyStartswith "shaper_type" "type" 7 = true := by decide

theorem exceptMap_ok {ε α β : Type} (f : α → β) (x : α) :
    Except.map f (Except.ok x : Except ε α) = .ok (f x) := rfl

theorem shaperFilter_nil : shaperFilter ([] : List (String × PyVal)) = .ok [] := rfl

theorem shaperCollapse_std (fx fy dx dy : ℚ) (tx ty : String) :
    shaperCollapse
        [("shaper_freq_x", .num fx), ("shaper_freq_y", .num fy),
         ("shaper_type_x", .str tx), ("shaper_type_y", .str ty),
         ("damping_ratio_x", .num dx), ("damping_ratio_y", .num dy)]
      = .ok (if tx = ty then
          [("shaper_freq_x", .num fx), ("shaper_freq_y", .num fy),
           ("damping_ratio_x", .num dx), ("damping_ratio_y", .num dy),
           ("shaper_type", .str tx)]
        else
          [("shaper_freq_x", .num fx), ("shaper_freq_y", .num fy),
           ("shaper_type_x", .str tx), ("shaper_type_y", .str ty),
           ("damping_ratio_x", .num dx), ("damping_ratio_y", .num dy)]) := by
  by_cases h : tx = ty <;>
    simp [shaperCollapse, pyAssocGet, pyEq, h, pure, Except.pure]

set_option maxHeartbeats 800000 in
/-- **C8**: the two shaper types collapse into a unified `shaper_type`
parameter exactly when they are equal (appended at the end of the dict,
otherwise both axis keys are kept); a frequency or damping value passes the
filter iff `≥ 0`; a type passes unless `"disabled"`; and included zero
values are reported through a single aggregated warning (two zeros produce
one message counting 2). -/
theorem C8_input_shaper (fx fy dx dy : ℚ) (tx ty : String) (w : List String) :
    (shaperCollapse
        [("shaper_freq_x", .num fx), ("shaper_freq_y", .num fy),
         ("shaper_type_x", .str tx), ("shaper_type_y", .str ty),
         ("damping_ratio_x", .num dx), ("damping_ratio_y", .num dy)]
      = .ok (if tx = ty then
          [("shaper_freq_x", .num fx), ("shaper_freq_y", .num fy),
           ("damping_ratio_x", .num dx), ("damping_ratio_y", .num dy),
           ("shaper_type", .str tx)]
        else
          [("shaper_freq_x", .num fx), ("shaper_freq_y", .num fy),
           ("shaper_type_x", .str tx), ("shaper_type_y", .str ty),
           ("damping_ratio_x", .num dx), ("damping_ratio_y", .num dy)])) ∧
    ((shaperCollapse
        [("shaper_freq_x", .num fx), ("shaper_freq_y", .num fy),
         ("shaper_type_x", .str tx), ("shaper_type_y", .str ty),
         ("damping_ratio_x", .num dx), ("damping_ratio_y", .num dy)]).bind shaperFilter
      = .ok (if tx = ty then
          (if 0 ≤ fx then [("shaper_freq_x", .num fx)] else []) ++
          (if 0 ≤ fy then [("shaper_freq_y", .num fy)] else []) ++
          (if 0 ≤ dx then [("damping_ratio_x", .num dx)] else []) ++
          (if 0 ≤ dy then [("damping_ratio_y", .num dy)] else []) ++
          (if tx = "disabled" then [] else [("shaper_type", .str tx)])
        else
          (if 0 ≤ fx then [("shaper_freq_x", .num fx)] else []) ++
          (if 0 ≤ fy then [("shaper_freq_y", .num fy)] else []) ++
          (if tx = "disabled" then [] else [("shaper_type_x", .str tx)]) ++
          (if ty = "disabled" then [] else [("shaper_type_y", .str ty)]) ++
          (if 0 ≤ dx then [("damping_ratio_x", .num dx)] else []) ++
          (if 0 ≤ dy then [("damping_ratio_y", .num dy)] else []))) ∧
    gcodeInputShaper shaperTwoZeroExample false w
      = .ok (Option.some
          "SET_INPUT_SHAPER SHAPER_FREQ_X=50 SHAPER_FREQ_Y=0 DAMPING_RATIO_X=1 DAMPING_RATIO_Y=0 SHAPER_TYPE=MZV ",
          [("shaper_freq_x", .num 50), ("shaper_freq_y", .num 0),
           ("damping_ratio_x", .num 1), ("damping_ratio_y", .num 0),
           ("shaper_type", .str "mzv")],
          w ++ [shaperWarning 2]) := by
  refine ⟨shaperCollapse_std fx fy dx dy tx ty, ?_, ?_⟩
  · rw [shaperCollapse_std]
    by_cases h : tx = ty <;>
      simp only [h, eq_self_iff_true, if_true, if_false, ite_true, ite_false,
        Except.bind,
        shaperFilter_num_cons _ _ _ shaperKeys_pos7.1,
        shaperFilter_num_cons _ _ _ shaperKeys_pos7.2.1,
        shaperFilter_num_cons _ _ _ shaperKeys_pos7.2.2.1,
        shaperFilter_num_cons _ _ _ shaperKeys_pos7.2.2.2.1,
        shaperFilter_str_cons _ _ _ shaperKeys_pos7.2.2.2.2.1,
        shaperFilter_str_cons _ _ _ shaperKeys_pos7.2.2.2.2.2.1,
        shaperFilter_str_cons _ _ _ shaperKeys_pos7.2.2.2.2.2.2,
        shaperFilter_nil, exceptMap_ok] <;>
      split_ifs <;> rfl
  · rfl

/-! ## C9 — formatter purity and effects -/

theorem exceptBind_ok {ε α β : Type} (a : α) (f : α → Except ε β) :
    (Except.ok a : Except ε α) >>= f = f a := rfl

theorem exceptBind_err {ε α β : Type} (e : ε) (f : α → Except ε β) :
    (Except.error e : Except ε α) >>= f = .error e := rfl

theorem velocityFold_append (ov : Bool) (l : List (String × ℚ)) (s : String)
    (w0 : List String) :
    ∃ e, (l.foldl (velocityFoldStep ov) (s, w0)).2 = w0 ++ e := by
  induction l generalizing s w0 with
  | nil => exact ⟨[], by simp⟩
  | cons kv rest ih =>
    simp only [List.foldl_cons]
    by_cases hc : (!ov && (kv.1 == "square_corner_velocity" && kv.2 == 0)) = true
    · rcases ih (velocityFoldStep ov (s, w0) kv).1
        (w0 ++ ["•  Square Corner Velocity Limit = <b>0</b>"]) with ⟨e, he⟩
      refine ⟨"•  Square Corner Velocity Limit = <b>0</b>" :: e, ?_⟩
      have hstep : velocityFoldStep ov (s, w0) kv
          = ((velocityFoldStep ov (s, w0) kv).1,
             w0 ++ ["•  Square Corner Velocity Limit = <b>0</b>"]) := by
        simp [velocityFoldStep, hc]
      rw [hstep, he]
      simp
    · rcases ih (velocityFoldStep ov (s, w0) kv).1 w0 with ⟨e, he⟩
      refine ⟨e, ?_⟩
      have hstep : velocityFoldStep ov (s, w0) kv
          = ((velocityFoldStep ov (s, w0) kv).1, w0) := by
        simp [velocityFoldStep, hc]
      rw [hstep, he]

theorem shaper_ok_effects (ss : List (String × PyVal)) (ov : Bool) (w : List String)
    (r : Option String × List (String × PyVal) × List String)
    (h : gcodeInputShaper ss ov w = .ok r) :
    shaperCollapse ss = .ok r.2.1 ∧ ∃ e, r.2.2 = w ++ e ∧ e.length ≤ 1 := by
  unfold gcodeInputShaper at h
  rcases hc : shaperCollapse ss with e | ss'
  · rw [hc, exceptBind_err] at h
    exact Except.noConfusion h
  · rw [hc, exceptBind_ok] at h
    rcases hf : shaperFilter ss' with e | kept
    · rw [hf, exceptBind_err] at h
      exact Except.noConfusion h
    · rw [hf, exceptBind_ok] at h
      by_cases hk : kept.isEmpty
      · rw [if_pos hk] at h
        simp only [pure, Except.pure, Except.ok.injEq] at h
        subst h
        exact ⟨rfl, ⟨[], by simp, by simp⟩⟩
      · rw [if_neg hk] at h
        rcases hcmd : shaperRender kept with e | cmd
        · rw [hcmd, exceptBind_err] at h
          exact Except.noConfusion h
        · rw [hcmd, exceptBind_ok] at h
          simp only [pure, Except.pure, Except.ok.injEq] at h
          subst h
          refine ⟨rfl, ?_⟩
          by_cases hw : (!ov && ((kept.filter fun kv => pyEqZero kv.2).length != 0)) = true
          · exact ⟨[shaperWarning (kept.filter fun kv => pyEqZero kv.2).length],
              by simp [hw], by simp⟩
          · exact ⟨[], by simp [hw], by simp⟩

/-- **C9, counterexample**: the input shaper formatter is *not* free of
effects: on a dict with equal shaper types it rewrites its argument map (the
collapse mutates the caller's dict) and it appends a warning to the plugin's
warning list. -/
theorem C9_counterexample :
    (gcodeInputShaper shaperExample false []).map (fun r => r.2.1)
      ≠ .ok shaperExample ∧
    (gcodeInputShaper shaperExample false []).map (fun r => r.2.2)
      ≠ .ok ([] : List String) :=
  ⟨by decide, by decide⟩

/-- **C9 (amended)**: each formatter computes its command purely from its
arguments, and the velocity limits and firmware retraction formatters signal
"no command" by the `None` sentinel exactly when their kept parameter set is
empty; but the formatters do touch state: velocity limits, input shaper and
tuning tower append to the plugin's warning list (tuning tower always appends
exactly one message, input shaper at most one), and the input shaper
formatter leaves its argument dict in the state produced by the type-collapse
mutation. -/
theorem C9_formatter_effects (vl : List (String × ℚ)) (ov : Bool) (w : List String)
    (ts : TowerSettings) (me : Bool) (rs : List (String × ℚ))
    (ss : List (String × PyVal))
    (r : Option String × List (String × PyVal) × List String)
    (h : gcodeInputShaper ss ov w = .ok r) :
    (∃ e, (gcodeVelocityLimits vl ov w).2 = w ++ e) ∧
    ((gcodeVelocityLimits vl ov w).1 = Option.none ↔ velocityKept vl = []) ∧
    (∃ msg, (gcodeTuningTower ts me w).2 = w ++ [msg]) ∧
    shaperCollapse ss = .ok r.2.1 ∧
    (∃ e, r.2.2 = w ++ e ∧ e.length ≤ 1) ∧
    (gcodeFirmwareRetraction rs = Option.none ↔ retractionKept rs = []) := by
  refine ⟨?_, ?_, ⟨_, rfl⟩, (shaper_ok_effects ss ov w r h).1,
    (shaper_ok_effects ss ov w r h).2, ?_⟩
  · by_cases hk : (velocityKept vl).isEmpty
    · exact ⟨[], by simp [gcodeVelocityLimits, hk]⟩
    · rcases velocityFold_append ov (velocityKept vl) "SET_VELOCITY_LIMIT " w with ⟨e, he⟩
      exact ⟨e, by simp [gcodeVelocityLimits, hk, he]⟩
  · rcases hkk : velocityKept vl with _ | ⟨a, rest⟩ <;>
      simp [gcodeVelocityLimits, hkk]
  · rcases hr : retractionKept rs with _ | ⟨a, rest⟩ <;>
      simp [gcodeFirmwareRetraction, hr]

/-- **C9, witness**: the amended theorem applied at concrete inputs. -/
theorem C9_witness :
    (∃ e, (gcodeVelocityLimits velocityExample false []).2 = [] ++ e) ∧
    ((gcodeVelocityLimits velocityExample false []).1 = Option.none ↔
      velocityKept velocityExample = []) ∧
    (∃ msg, (gcodeTuningTower towerExample false []).2 = [] ++ [msg]) ∧
    shaperCollapse shaperExample
      = .ok ((Option.some
          "SET_INPUT_SHAPER SHAPER_FREQ_X=50 SHAPER_FREQ_Y=40 DAMPING_RATIO_X=1 DAMPING_RATIO_Y=0 SHAPER_TYPE=MZV ",
          [("shaper_freq_x", PyVal.num 50), ("shaper_freq_y", PyVal.num 40),
           ("damping_ratio_x", PyVal.num 1), ("damping_ratio_y", PyVal.num 0),
           ("shaper_type", PyVal.str "mzv")],
          [shaperWarning 1]) :
            Option String × List (String × PyVal) × List String).2.1 ∧
    (∃ e, ((Option.some
          "SET_INPUT_SHAPER SHAPER_FREQ_X=50 SHAPER_FREQ_Y=40 DAMPING_RATIO_X=1 DAMPING_RATIO_Y=0 SHAPER_TYPE=MZV ",
          [("shaper_freq_x", PyVal.num 50), ("shaper_freq_y", PyVal.num 40),
           ("damping_ratio_x", PyVal.num 1), ("damping_ratio_y", PyVal.num 0),
           ("shaper_type", PyVal.str "mzv")],
          [shaperWarning 1]) :
            Option String × List (String × PyVal) × List String).2.2
        = [] ++ e ∧ e.length ≤ 1) ∧
    (gcodeFirmwareRetraction [("retract_length", 1)] = Option.none ↔
      retractionKept [("retract_length", 1)] = []) :=
  C9_formatter_effects velocityExample false [] towerExample false
    [("retract_length", 1)] shaperExample _ (by decide)

/-! ## C5 — layer-0 feature remap -/

theorem type_line_not_layer (ft : String) :
    pyStartswith (";TYPE:" ++ ft) ";LAYER:" = false :=
  pyStartswith_false_of_startswith ";LAYER:" (pyStartswith_self_append ";TYPE:" ft)
    (by decide) (by decide)

theorem type_line_not_mesh (ft : String) :
    pyStartswith (";TYPE:" ++ ft) ";MESH:" = false :=
  pyStartswith_false_of_startswith ";MESH:" (pyStartswith_self_append ";TYPE:" ft)
    (by decide) (by decide)

theorem type_line_ne_tool (ft : String) (i : Nat) :
    ((";TYPE:" ++ ft) == "T" ++ toString i) = false := by
  rw [beq_eq_false_iff_ne]
  intro hEq
  have hdata : (";TYPE:" ++ ft).data = ("T" ++ toString i).data :=
    congrArg String.data hEq
  rw [String.data_append, String.data_append] at hdata
  have hcons : (';' :: ("TYPE:".data ++ ft.data) : List Char)
      = 'T' :: (toString i).data := hdata
  simp at hcons

theorem type_line_tool_any_false (ft : String) (l : List Nat) :
    (l.any fun i => (";TYPE:" ++ ft) == "T" ++ toString i) = false := by
  rw [List.any_eq_false]
  intro i _
  simp [type_line_ne_tool ft i]

theorem applyFactor_feature_type (cfg : PAConfig) (st : ScanState) :
    (applyFactor cfg st).1.feature_type = st.feature_type := by
  simp only [applyFactor]
  split <;> rfl

/-- **C5**: on a feature-type marker seen while the current layer index is
at most 0, any feature other than `SKIRT` is remapped to `LAYER_0`, and
`SKIRT` keeps its tag; on later layers the feature is stored unchanged. -/
theorem C5_layer0_remap (cfg : PAConfig) (st : ScanState) (ft : String) :
    (stepLine cfg st (";TYPE:" ++ ft)).1.feature_type
      = if st.current_layer_nr ≤ 0 ∧ ft ≠ "SKIRT" then "LAYER_0" else ft := by
  unfold stepLine
  rw [type_line_not_layer, type_line_not_mesh, type_line_tool_any_false,
    pyStartswith_self_append, pyDrop_prefix_append ft (p := ";TYPE:") (n := 6) (by decide)]
  simp only [Bool.false_and, Bool.and_false, if_false, ite_false, Bool.false_eq_true,
    if_true, ite_true]
  split <;> (split <;> simp [applyFactor_feature_type])

/-! ## C2 — insertion rule of the annotation pass -/

theorem perMeshGet_nil (m : Option String) (f : String) :
    perMeshGet [] m f = Option.none := by
  cases m <;> rfl

theorem scanLines_len_none (cfg : PAConfig) (st st' : ScanState) (line : String)
    (rest : List String) (h : stepLine cfg st line = (st', Option.none)) :
    (scanLines cfg st (line :: rest)).1.length
      = 1 + (scanLines cfg st' rest).1.length := by
  rcases hr : scanLines cfg st' rest with ⟨out, st2, changed⟩
  simp [scanLines, h, hr, Nat.add_comm]

theorem scanLines_len_some (cfg : PAConfig) (st st' : ScanState) (line : String)
    (rest : List String) (b : Bool) (cmd : String)
    (h : stepLine cfg st line = (st', Option.some (b, cmd))) :
    (scanLines cfg st (line :: rest)).1.length
      = 2 + (scanLines cfg st' rest).1.length := by
  rcases hr : scanLines cfg st' rest with ⟨out, st2, changed⟩
  cases b <;> simp [scanLines, h, hr] <;> omega

theorem stepLine_layer (cfg : PAConfig) (st : ScanState) (line : String)
    (hL : pyStartswith line ";LAYER:" = true)
    (htool : decide (cfg.active_extruder_list.length > 1) = false) :
    stepLine cfg st line
      = ({ st with
            current_layer_nr :=
              match pyInt? (pyDrop line 7) with
              | Option.some n => n
              | Option.none => st.current_layer_nr,
            new_layer := !cfg.active_mesh_features.isEmpty }, Option.none) := by
  have hM := pyStartswith_false_of_startswith ";MESH:" hL (by decide) (by decide)
  have hT := pyStartswith_false_of_startswith ";TYPE:" hL (by decide) (by decide)
  simp only [stepLine, hL, hM, hT, htool, Bool.false_and, Bool.and_false,
    Bool.false_eq_true, if_true, ite_true, if_false, ite_false]
  cases hp : pyInt? (pyDrop line 7) <;> rfl

theorem stepLine_mesh (cfg : PAConfig) (st : ScanState) (line : String)
    (hL : pyStartswith line ";LAYER:" = false)
    (hM : pyStartswith line ";MESH:" = true)
    (hNM : (pyDrop line 6 != "NONMESH") = true)
    (htool : decide (cfg.active_extruder_list.length > 1) = false)
    (hfe : st.feature_type_error = false) :
    stepLine cfg st line
      = ({ st with current_mesh := Option.some (pyDrop line 6) }, Option.none) := by
  simp only [stepLine, hL, hM, hNM, htool, Bool.false_and, Bool.and_false,
    Bool.true_and, Bool.false_eq_true, if_true, ite_true, if_false, ite_false, hfe,
    Bool.not_false, if_true]

theorem stepLine_mesh_nonmesh (cfg : PAConfig) (st : ScanState) (line : String)
    (hL : pyStartswith line ";LAYER:" = false)
    (hM : pyStartswith line ";MESH:" = true)
    (hNM : (pyDrop line 6 != "NONMESH") = false)
    (htool : decide (cfg.active_extruder_list.length > 1) = false) :
    stepLine cfg st line = (st, Option.none) := by
  have hT := pyStartswith_false_of_startswith ";TYPE:" hM (by decide) (by decide)
  simp only [stepLine, hL, hM, hNM, hT, htool, Bool.false_and, Bool.and_false,
    Bool.true_and, Bool.false_eq_true, if_true, ite_true, if_false, ite_false]

theorem stepLine_other (cfg : PAConfig) (st : ScanState) (line : String)
    (hL : pyStartswith line ";LAYER:" = false)
    (hM : pyStartswith line ";MESH:" = false)
    (hT : pyStartswith line ";TYPE:" = false)
    (htool : decide (cfg.active_extruder_list.length > 1) = false) :
    stepLine cfg st line = (st, Option.none) := by
  simp only [stepLine, hL, hM, hT, htool, Bool.false_and, Bool.and_false,
    Bool.false_eq_true, if_true, ite_true, if_false, ite_false]

theorem stepLine_type (cfg : PAConfig) (st : ScanState) (line : String)
    (hL : pyStartswith line ";LAYER:" = false)
    (hT : pyStartswith line ";TYPE:" = true)
    (htool : decide (cfg.active_extruder_list.length > 1) = false)
    (hnl : st.new_layer = false)
    (hpm : cfg.per_mesh_factors = []) :
    stepLine cfg st line
      = (if st.current_factor st.extruder_nr
            ≠ Option.some (cfg.extruder_factors st.extruder_nr
                (if st.current_layer_nr ≤ 0 ∧ pyDrop line 6 ≠ "SKIRT" then "LAYER_0"
                 else pyDrop line 6)) then
          ({ st with
              feature_type :=
                if st.current_layer_nr ≤ 0 ∧ pyDrop line 6 ≠ "SKIRT" then "LAYER_0"
                else pyDrop line 6,
              new_layer := false,
              current_factor := fun n =>
                if n = st.extruder_nr then
                  Option.some (cfg.extruder_factors st.extruder_nr
                    (if st.current_layer_nr ≤ 0 ∧ pyDrop line 6 ≠ "SKIRT" then "LAYER_0"
                     else pyDrop line 6))
                else st.current_factor n },
           Option.some (true, paCommand st.extruder_nr
              (cfg.extruder_factors st.extruder_nr
                (if st.current_layer_nr ≤ 0 ∧ pyDrop line 6 ≠ "SKIRT" then "LAYER_0"
                 else pyDrop line 6))))
        else
          ({ st with
              feature_type :=
                if st.current_layer_nr ≤ 0 ∧ pyDrop line 6 ≠ "SKIRT" then "LAYER_0"
                else pyDrop line 6,
              new_layer := false }, Option.none)) := by
  have hM := pyStartswith_false_of_startswith ";MESH:" hT (by decide) (by decide)
  simp only [stepLine, hL, hM, hT, htool, hnl, Bool.false_and, Bool.and_false,
    Bool.false_eq_true, if_true, ite_true, if_false, ite_false, applyFactor, hpm,
    perMeshGet_nil, Option.getD_none]
  by_cases hc : st.current_factor st.extruder_nr
      ≠ Option.some (cfg.extruder_factors st.extruder_nr
          (if st.current_layer_nr ≤ 0 ∧ pyDrop line 6 ≠ "SKIRT" then "LAYER_0"
           else pyDrop line 6))
  · simp only [if_pos hc]
    rfl
  · simp only [if_neg hc]
    rfl

/-- **C2, counterexample**: with a per-object infill override in play
(`active_mesh_features` nonempty), the first tracked feature marker of a
layer sets the `feature_type_error` flag and defers its command: no line is
inserted after the `;TYPE:FILL` marker even though its resolved value (6)
differs from the last emitted value (4). -/
theorem C2_counterexample :
    (scanLines deferralScanConfig
        (initialScanState deferralScanConfig exampleInitialFactor)
        [";LAYER:2", ";MESH:m", ";TYPE:FILL"]).1
      = [";LAYER:2", ";MESH:m", ";TYPE:FILL"] ∧
    perMeshGet deferralScanConfig.per_mesh_factors (Option.some "m") "FILL"
      = Option.some 6 ∧
    exampleInitialFactor 0 = Option.some 4 ∧ (6 : ℚ) ≠ 4 :=
  ⟨by decide, by decide, by decide, by decide⟩

/-- **C2 (amended)**: when no per-object overrides exist (`per_mesh_factors`
and `active_mesh_features` empty) and a single extruder is active, the loop
inserts a command after a feature-type marker exactly when the resolved
value differs from the last emitted one, so the number of inserted lines
equals the number of distinct consecutive resolved values, counted from the
start-sequence emission.  (With per-object overrides present, the first
tracked feature marker of a layer instead defers its insertion to the next
mesh marker — see the counterexample.) -/
theorem C2_insert_count (cfg : PAConfig) (st : ScanState) (lines : List String)
    (hmf : cfg.active_mesh_features = []) (hpm : cfg.per_mesh_factors = [])
    (hsingle : cfg.active_extruder_list.length ≤ 1)
    (hnl : st.new_layer = false) (hfe : st.feature_type_error = false) :
    (scanLines cfg st lines).1.length
      = lines.length + countChanges (st.current_factor st.extruder_nr)
          (resolvedSeq cfg st.extruder_nr st.current_layer_nr lines) := by
  have htool : decide (cfg.active_extruder_list.length > 1) = false :=
    decide_eq_false (by omega)
  revert st
  induction lines with
  | nil =>
    intro st hnl hfe
    simp [scanLines, resolvedSeq, countChanges]
  | cons line rest ih =>
    intro st hnl hfe
    by_cases hL : pyStartswith line ";LAYER:" = true
    · rw [scanLines_len_none cfg st _ line rest (stepLine_layer cfg st line hL htool)]
      rw [ih _ (by simp [hmf]) (by simp [hfe])]
      simp only [resolvedSeq, hL, if_true, ite_true, List.length_cons]
      omega
    · by_cases hM : pyStartswith line ";MESH:" = true
      · have hT := pyStartswith_false_of_startswith ";TYPE:" hM (by decide) (by decide)
        by_cases hNM : (pyDrop line 6 != "NONMESH") = true
        · rw [scanLines_len_none cfg st _ line rest
            (stepLine_mesh cfg st line (by simpa using hL) hM hNM htool hfe)]
          rw [ih _ (by simp [hnl]) (by simp [hfe])]
          simp only [resolvedSeq, hL, hT, Bool.false_eq_true, if_false, ite_false,
            List.length_cons]
          omega
        · rw [scanLines_len_none cfg st _ line rest
            (stepLine_mesh_nonmesh cfg st line (by simpa using hL) hM
              (by simpa using hNM) htool)]
          rw [ih _ hnl hfe]
          simp only [resolvedSeq, hL, hT, Bool.false_eq_true, if_false, ite_false,
            List.length_cons]
          omega
      · by_cases hT : pyStartswith line ";TYPE:" = true
        · have hstep := stepLine_type cfg st line
            (by simpa using hL) hT htool hnl hpm
          by_cases hc : st.current_factor st.extruder_nr
              ≠ Option.some (cfg.extruder_factors st.extruder_nr
                  (if st.current_layer_nr ≤ 0 ∧ pyDrop line 6 ≠ "SKIRT" then "LAYER_0"
                   else pyDrop line 6))
          · rw [if_pos hc] at hstep
            rw [scanLines_len_some cfg st _ line rest _ _ hstep]
            rw [ih _ (by simp) (by simp [hfe])]
            simp only [resolvedSeq, hL, hT, Bool.false_eq_true, if_false, ite_false,
              if_true, ite_true, List.length_cons, countChanges]
            rw [if_pos (Ne.symm hc)]
            simp
            omega
          · rw [if_neg hc] at hstep
            rw [scanLines_len_none cfg st _ line rest hstep]
            rw [ih _ (by simp) (by simp [hfe])]
            simp only [resolvedSeq, hL, hT, Bool.false_eq_true, if_false, ite_false,
              if_true, ite_true, List.length_cons, countChanges]
            rw [if_neg (fun hne => hc (Ne.symm hne))]
            omega
        · rw [scanLines_len_none cfg st _ line rest
            (stepLine_other cfg st line (by simpa using hL) (by simpa using hM)
              (by simpa using hT) htool)]
          rw [ih _ hnl hfe]
          simp only [resolvedSeq, hL, hT, Bool.false_eq_true, if_false, ite_false,
            List.length_cons]
          omega

/-- **C2, witness**: the theorem applied to the spec's worked example (layer
2, markers WALL-OUTER, FILL, WALL-OUTER): the scan inserts exactly the
number of distinct consecutive resolved values. -/
theorem C2_witness :
    (scanLines exampleScanConfig
        (initialScanState exampleScanConfig exampleInitialFactor)
        [";LAYER:2", ";TYPE:WALL-OUTER", ";TYPE:FILL", ";TYPE:WALL-OUTER"]).1.length
      = [";LAYER:2", ";TYPE:WALL-OUTER", ";TYPE:FILL", ";TYPE:WALL-OUTER"].length
        + countChanges
          ((initialScanState exampleScanConfig exampleInitialFactor).current_factor
            (initialScanState exampleScanConfig exampleInitialFactor).extruder_nr)
          (resolvedSeq exampleScanConfig
            (initialScanState exampleScanConfig exampleInitialFactor).extruder_nr
            (initialScanState exampleScanConfig exampleInitialFactor).current_layer_nr
            [";LAYER:2", ";TYPE:WALL-OUTER", ";TYPE:FILL", ";TYPE:WALL-OUTER"]) :=
  C2_insert_count exampleScanConfig
    (initialScanState exampleScanConfig exampleInitialFactor)
    [";LAYER:2", ";TYPE:WALL-OUTER", ";TYPE:FILL", ";TYPE:WALL-OUTER"]
    rfl rfl (by decide) rfl rfl

/-! ## C1 — idempotency marker placement -/

/-- **C1 (code bug)**: the finalize block (source lines 752-757) sits outside
the plate loop, so after a two-plate job only the *last* plate's preamble
receives the idempotency marker; the first mutated plate stays unmarked and
a second invocation mutates it again — the output of running the filter
twice differs from running it once. -/
theorem C1_second_pass_differs :
    (filterGcode velocityOnlySettings
        (filterGcode velocityOnlySettings twoPlateJob).1).1
      ≠ (filterGcode velocityOnlySettings twoPlateJob).1 ∧
    strContains (((filterGcode velocityOnlySettings twoPlateJob).1.getD 0 []).getD 0 "")
        processedMarker = false ∧
    strContains (((filterGcode velocityOnlySettings twoPlateJob).1.getD 1 []).getD 0 "")
        processedMarker = true :=
  ⟨by decide, by decide, by decide⟩

/-! ## C3 — failure semantics of a resolution error -/

theorem paSetup_abort (s : String) : paSetup abortSettings s = .error () := rfl

theorem processPlate_abort (l0 l1 : String)
    (h0 : strContains l0 processedMarker = false) :
    processPlate abortSettings ⟨"", false, []⟩ [l0, l1]
      = .error ([l0, l1 ++ towerAbortInsert],
          (gcodeTuningTower towerExample false []).2) := by
  unfold processPlate
  simp only [List.length_cons, List.length_nil, List.headD_cons, h0,
    Bool.false_eq_true, if_false, ite_false, paSetup_abort]
  norm_num [towerAbortInsert, String.append_assoc]
  rfl

/-- **C3, counterexample**: under `abortSettings` (valid tuning tower,
non-numeric pressure advance primary) the two-plate job shows the claim
false: the aborted first plate keeps the tuning tower command appended
before the error (partial mutation persisted), and the second plate — which
the same settings would process on its own — is left untouched. -/
theorem C3_counterexample :
    (filterGcode abortSettings twoPlateJob).1.getD 0 [] ≠ twoPlateJob.getD 0 [] ∧
    (filterGcode abortSettings twoPlateJob).1.getD 1 [] = twoPlateJob.getD 1 [] ∧
    (filterGcode abortSettings [twoPlateJob.getD 1 []]).1 ≠ [twoPlateJob.getD 1 []] :=
  ⟨by decide, by decide, by decide⟩

/-- **C3 (amended)**: a value the pressure advance formatter cannot format
stops the *entire invocation* (the handler returns from `_filterGcode`): the
failing plate keeps the in-place mutations already applied to it (here the
tuning tower command on its start sequence), every later plate is left
unprocessed, and no idempotency marker is appended. -/
theorem C3_abort_stops_invocation (l0 l1 : String) (p2 : List String)
    (h0 : strContains l0 processedMarker = false) :
    (filterGcode abortSettings [[l0, l1], p2]).1
      = [[l0, l1 ++ towerAbortInsert], p2] ∧
    l1 ++ towerAbortInsert ≠ l1 := by
  constructor
  · unfold filterGcode
    simp only [List.isEmpty_cons, Bool.false_eq_true, if_false, ite_false]
    unfold filterGcodeGo
    rw [processPlate_abort l0 l1 h0]
    rfl
  · intro hEq
    have hlen := congrArg String.length hEq
    rw [String.length_append] at hlen
    have hpos : 0 < towerAbortInsert.length := by decide
    omega

/-- **C3, witness**: the amended theorem applied to a concrete two-plate
job. -/
theorem C3_witness :
    (filterGcode abortSettings
        [["; plate 1 preamble", "G28"], ["; plate 2 preamble", "G28"]]).1
      = [["; plate 1 preamble", "G28" ++ towerAbortInsert],
         ["; plate 2 preamble", "G28"]] ∧
    "G28" ++ towerAbortInsert ≠ "G28" :=
  C3_abort_stops_invocation "; plate 1 preamble" "G28"
    ["; plate 2 preamble", "G28"] (by decide)

end KlipperSettings
